import Mathlib

/-!
Verification of the job-lifecycle and image-normalization core of the
maintenance-ticketing backend (Django app `myappLubd`).

The definitions below are a shallow embedding of
`src/Lastnext/backend/myLubd/src/myappLubd/models.py`,
`.../serializers.py` and `.../views.py`.  Machine-level concerns
(database cursors, HTTP plumbing) are abstracted: time is a `Nat`
oracle passed to each operation, the random draw used by
`generate_job_id` and `get_random_string` is passed as an explicit
argument, and tables are lists of records.
-/

/-! ## Job model state (`models.py`, class `Job`) -/

/-- `Job.STATUS_CHOICES` keys (models.py lines 234-240). -/
def STATUS_CHOICES : List String :=
  ["pending", "in_progress", "waiting_sparepart", "completed", "cancelled"]

/-- The scalar fields of a `Job` row that the lifecycle claims touch.
`status` is an `Option` because `JobViewSet.update_status` assigns
`request.data.get('status')` to it, which is `None` when absent. -/
structure JobState where
  job_id : String
  status : Option String
  completed_at : Option Nat
  updated_by : Option Nat
  deriving Repr, DecidableEq

/-- `strftime('%y')`: the year modulo 100, zero-padded to two digits. -/
def twoDigitYear (year : Nat) : String :=
  let n := year % 100
  if n < 10 then "0" ++ Nat.repr n else Nat.repr n

/-- `Job.generate_job_id` (models.py lines 313-317):
`"j" + timezone.now().strftime('%y') + get_random_string(6, '0123456789ABCDEF')`.
The six random characters are passed in as `rand`. -/
def generate_job_id (year : Nat) (rand : List Char) : String :=
  "j" ++ twoDigitYear year ++ String.mk rand

/-- `Job.save` (models.py lines 305-311): assign `job_id` when it is
still empty, stamp `completed_at` when the status is `completed` and
the stamp is unset, then persist.  `genId` is the value
`generate_job_id` would return on this call (the random draw is an
oracle). -/
def jobModelSave (now : Nat) (genId : String) (j : JobState) : JobState :=
  let j1 := if j.job_id.isEmpty then { j with job_id := genId } else j
  if j1.status = some "completed" ∧ j1.completed_at = none then
    { j1 with completed_at := some now }
  else j1

/-- Python truthiness of an optional string (`None` and `""` are falsy). -/
def truthyStr : Option String → Bool
  | none => false
  | some s => !s.isEmpty

/-- `JobViewSet.update_status` (views.py lines 50-66): reject a truthy
status value outside `STATUS_CHOICES`; otherwise record the acting
user as `updated_by` (the endpoint requires authentication), stamp
`completed_at` on a transition into `completed`, assign the raw status
value, and save.  The error payload is the view's 400 response detail. -/
def update_status (statusValue : Option String) (userId : Nat)
    (authenticated : Bool) (now : Nat) (genId : String) (j : JobState) :
    Except String JobState :=
  if truthyStr statusValue ∧ statusValue.getD "" ∉ STATUS_CHOICES then
    .error "Invalid status value."
  else
    let j1 := if authenticated then { j with updated_by := some userId } else j
    let j2 := if statusValue = some "completed" ∧ j.status ≠ some "completed" then
        { j1 with completed_at := some now }
      else j1
    let j3 := { j2 with status := statusValue }
    .ok (jobModelSave now genId j3)

/-! ## Lifecycle traces for the `completed_at` claim -/

/-- One status-affecting operation on a job: either a caller sets the
status and calls the model `save` path, or the `update_status` view
runs.  Each operation carries the wall-clock time and the id the
generator would produce. -/
inductive JobOp where
  | saveWithStatus (new : Option String) (now : Nat) (genId : String)
  | updStatus (sv : Option String) (userId : Nat) (auth : Bool)
      (now : Nat) (genId : String)
  deriving Repr, DecidableEq

/-- The wall-clock time an operation runs at. -/
def JobOp.now : JobOp → Nat
  | .saveWithStatus _ n _ => n
  | .updStatus _ _ _ n _ => n

/-- Apply one operation; a rejected `update_status` leaves the row
untouched (the view returns 400 before mutating the job). -/
def stepJob (j : JobState) : JobOp → JobState
  | .saveWithStatus new now genId => jobModelSave now genId { j with status := new }
  | .updStatus sv u a now genId =>
      match update_status sv u a now genId j with
      | .ok j2 => j2
      | .error _ => j

/-- Run a list of operations in order. -/
def runJob (j : JobState) : List JobOp → JobState
  | [] => j
  | op :: rest => runJob (stepJob j op) rest

/-- `true` when some state along the run (the final one included) has
status `completed`. -/
def reachesCompleted (j : JobState) : List JobOp → Bool
  | [] => j.status == some "completed"
  | op :: rest => j.status == some "completed" || reachesCompleted (stepJob j op) rest

/-! ## Image normalization pipeline (`models.py`) -/

/-- An in-memory decoded image: dimensions plus PIL color mode. -/
structure Img where
  width : Nat
  height : Nat
  mode : String
  deriving Repr, DecidableEq

/-- Pick between `⌊q⌋` and `⌈q⌉` by the key function (the first
argument wins ties, as Python's `min` does), then clamp to at least 1.
This is PIL's `round_aspect` inside `Image.thumbnail`. -/
def roundAspect (q : ℚ) (key : ℤ → ℚ) : ℤ :=
  max (if key ⌊q⌋ ≤ key ⌈q⌉ then ⌊q⌋ else ⌈q⌉) 1

/-- PIL `Image.thumbnail((b, b))` on a `w × h` image, with exact
rational arithmetic in place of Python floats: no-op when the image
already fits; otherwise scale the short side so the long side becomes
`b`, rounding the short side to the neighbouring integer whose ratio
is closest to the original aspect. -/
def pilThumbnail (b w h : Nat) : Nat × Nat :=
  if w ≤ b ∧ h ≤ b then (w, h)
  else
    let aspect : ℚ := (w : ℚ) / (h : ℚ)
    if w ≤ h then
      ((roundAspect ((b : ℚ) * aspect)
          (fun n => |aspect - (n : ℚ) / (b : ℚ)|)).toNat, b)
    else
      (b, (roundAspect ((b : ℚ) / aspect)
          (fun n => if n = 0 then 0 else |aspect - (b : ℚ) / (n : ℚ)|)).toNat)

/-- Resize an image with `thumbnail`; the color mode is untouched. -/
def thumbInto (b : Nat) (i : Img) : Img :=
  let p := pilThumbnail b i.width i.height
  { i with width := p.1, height := p.2 }

/-- The observable steps of one normalization run. -/
inductive PipeStep where
  | decode | composite | convert | resize | encode
  deriving Repr, DecidableEq

/-- Encoding parameters of the final `img.save(...)` call. -/
structure EncodeParams where
  format : String
  quality : Nat
  optimize : Bool
  deriving Repr, DecidableEq

/-- `JobImage.MAX_SIZE` (models.py line 127). -/
def jobImageBound : Nat := 800

/-- Profile images are bounded to 300 x 300 (models.py lines 362-364). -/
def profileImageBound : Nat := 300

/-- `img.save(output, 'JPEG', quality=85, optimize=True)` in
`JobImage.process_image` (models.py line 190). -/
def jobEncodeParams : EncodeParams := { format := "JPEG", quality := 85, optimize := true }

/-- `img.save(output, format='WEBP', quality=85, optimize=True)` in
`UserProfile.save` (models.py line 368). -/
def profileEncodeParams : EncodeParams := { format := "WEBP", quality := 85, optimize := true }

/-- `JobImage.process_image` (models.py lines 165-195), successful
path: decode; thumbnail to 800 x 800 when a dimension exceeds it;
composite `RGBA`/`LA` onto a white background (mode becomes `RGB`);
convert any other mode to `RGB`; encode as JPEG.  Returns the final
image together with the ordered step trace. -/
def jobNormalize (img : Img) : Img × List PipeStep :=
  let t0 := [PipeStep.decode]
  let s1 := if img.width > jobImageBound ∨ img.height > jobImageBound then
      (thumbInto jobImageBound img, t0 ++ [PipeStep.resize])
    else (img, t0)
  let s2 := if s1.1.mode = "RGBA" ∨ s1.1.mode = "LA" then
      ({ s1.1 with mode := "RGB" }, s1.2 ++ [PipeStep.composite])
    else s1
  let s3 := if s2.1.mode ≠ "RGB" then
      ({ s2.1 with mode := "RGB" }, s2.2 ++ [PipeStep.convert])
    else s2
  (s3.1, s3.2 ++ [PipeStep.encode])

/-- The profile-image branch of `UserProfile.save` (models.py lines
348-380), successful path: decode; composite `RGBA`/`LA` onto white,
`elif` convert any non-`RGB` mode; thumbnail to 300 x 300 when a
dimension exceeds it; encode as WEBP. -/
def profileNormalize (img : Img) : Img × List PipeStep :=
  let t0 := [PipeStep.decode]
  let s1 := if img.mode = "RGBA" ∨ img.mode = "LA" then
      ({ img with mode := "RGB" }, t0 ++ [PipeStep.composite])
    else if img.mode ≠ "RGB" then
      ({ img with mode := "RGB" }, t0 ++ [PipeStep.convert])
    else (img, t0)
  let s2 := if s1.1.height > profileImageBound ∨ s1.1.width > profileImageBound then
      (thumbInto profileImageBound s1.1, s1.2 ++ [PipeStep.resize])
    else s1
  (s2.1, s2.2 ++ [PipeStep.encode])

/-- Modelled from the spec: the step order the specification states for
the Normalization Pipeline — decode; composite when the decoded mode
has an alpha channel; convert when still not in the target mode;
downscale when a dimension exceeds the bound; encode.  Written from
the spec's words, to be compared with the traces of the source
functions. -/
def specNormalizeOrder (bound : Nat) (img : Img) : List PipeStep :=
  [PipeStep.decode]
  ++ (if img.mode = "RGBA" ∨ img.mode = "LA" then [PipeStep.composite] else [])
  ++ (if ¬(img.mode = "RGBA" ∨ img.mode = "LA") ∧ img.mode ≠ "RGB" then
        [PipeStep.convert] else [])
  ++ (if img.width > bound ∨ img.height > bound then [PipeStep.resize] else [])
  ++ [PipeStep.encode]

/-! ## Database tables and the `JobSerializer` operations -/

/-- A `Property` row: primary key and the generated `property_id`. -/
structure PropertyRec where
  pk : Nat
  property_id : String
  deriving Repr, DecidableEq

/-- A `Room` row: primary key plus its many-to-many property links
(the model field is named `properties`; there is no field named
`property`). -/
structure RoomRec where
  id : Nat
  name : String
  properties : List Nat
  deriving Repr, DecidableEq

/-- The `topic_data` JSON payload: a dict that may carry a `title`
and a `description` key. -/
structure TopicData where
  title : Option String
  description : Option String
  deriving Repr, DecidableEq

/-- The tables the serializer operations read and write.  Topics are
keyed by their unique title. -/
structure DB where
  props : List PropertyRec
  rooms : List RoomRec
  topicTitles : List String
  jobsCreated : Nat
  deriving Repr, DecidableEq

/-- `Property.objects.get(property_id=pid)` as an `Option`. -/
def findProperty (db : DB) (pid : String) : Option PropertyRec :=
  db.props.find? (fun p => p.property_id == pid)

/-- `Room.objects.get(id=rid)` as an `Option`. -/
def findRoom (db : DB) (rid : Nat) : Option RoomRec :=
  db.rooms.find? (fun r => r.id == rid)

/-- `Topic.objects.get_or_create(title=...)`: reuse the row with that
title, inserting it only when absent. -/
def topicGetOrCreate (db : DB) (title : String) : DB × String :=
  if title ∈ db.topicTitles then (db, title)
  else ({ db with topicTitles := db.topicTitles ++ [title] }, title)

/-- Python truthiness of an optional integer (`None` and `0` are falsy). -/
def truthyNat : Option Nat → Bool
  | none => false
  | some n => n != 0

/-- The serializer fields declared in the class body of `JobSerializer`
(serializers.py 76-95 and 243-258).  The class body declares most of
them twice; the second block re-binds those, but `property_id`,
`is_preventivemaintenance`, `property_name` and `due_date` appear only
in the first block and stay in the final class namespace. -/
def jobSerializerDeclaredFields : List String :=
  ["updated_by", "user", "images", "topics", "profile_image", "room_type",
   "name", "rooms", "topic_data", "room_id", "image_urls",
   "property_id", "is_preventivemaintenance", "property_name", "due_date"]

/-- The effective `Meta.fields` of `JobSerializer`: the second `Meta`
(serializers.py 260-268) shadows the first. -/
def jobSerializerMetaFields : List String :=
  ["id", "job_id", "user", "updated_by", "description", "status", "priority",
   "remarks", "created_at", "updated_at", "completed_at", "is_defective",
   "rooms", "topics", "images", "profile_image", "room_type", "name",
   "topic_data", "room_id", "image_urls"]

/-- The declared fields missing from the effective `Meta.fields`. -/
def missingDeclaredFields : List String :=
  jobSerializerDeclaredFields.filter (fun f => f ∉ jobSerializerMetaFields)

/-- The framework builds the serializer field set before any request
validation: every declared field must be listed in `Meta.fields`,
otherwise an AssertionError is raised and surfaces as a server error,
so no create request reaches the `create` method.  Python iterates the
offending names as a set; the embedding reports the first in
declaration order. -/
def jobSerializerFieldsGate : Except String Unit :=
  match missingDeclaredFields with
  | [] => .ok ()
  | f :: _ =>
      .error ("The field " ++ f ++
        " was declared on serializer JobSerializer, but has not been included in the fields option.")

/-- The write-side input of the effective `JobSerializer`: the second
declaration block makes `topic_data` and `room_id` the only extra
write fields, and the effective `Meta.fields` exposes the model fields
`description`, `status`, `priority`, `remarks`, `is_defective` and
`updated_by`.  This is `validated_data` before `create` pops
`topic_data` and `room_id`; there is no `property_id` input. -/
structure CreateInput where
  description : String
  remarks : String
  statusIn : Option String
  priorityIn : Option String
  is_defectiveIn : Option Bool
  updated_byIn : Option Nat
  topic_data : Option TopicData
  room_id : Option Nat
  deriving Repr, DecidableEq

/-- The concrete (non-many-to-many) fields of the `Job` model; these
are the keyword arguments `Job.__init__` accepts (models.py lines
233-293). -/
def jobModelFields : List String :=
  ["job_id", "updated_by", "user", "is_defective", "description",
   "remarks", "status", "priority", "created_at", "updated_at", "completed_at"]

/-- The keyword arguments of the `Job.objects.create(**validated_data,
user=request.user)` call in the effective `create` (serializers.py
lines 301-304). -/
def createKwargKeys (inp : CreateInput) : List String :=
  ["description", "remarks"]
  ++ (if inp.statusIn.isSome then ["status"] else [])
  ++ (if inp.priorityIn.isSome then ["priority"] else [])
  ++ (if inp.is_defectiveIn.isSome then ["is_defective"] else [])
  ++ (if inp.updated_byIn.isSome then ["updated_by"] else [])
  ++ ["user"]

/-- Django `Model.__init__`: every keyword must name a concrete model
field, otherwise a `TypeError` is raised listing the unexpected ones. -/
def jobObjectsCreate (keys : List String) : Except String Unit :=
  let unknown := keys.filter (fun k => k ∉ jobModelFields)
  if unknown.isEmpty then .ok ()
  else .error ("Job() got unexpected keyword arguments: " ++ String.intercalate ", " unknown)

/-- The error surfaced to the caller of `JobSerializer.create`. -/
inductive CreateErr where
  | plainErr (msg : String)
  | fieldErr (field : String) (msg : String)
  | detailErr (msg : String)
  deriving Repr, DecidableEq

/-- `Room.objects.get(room_id=rid)` in the effective `create`: the
`Room` model declares both `id` and `room_id` as auto primary key
fields, so both names address the row key. -/
def findRoomByRoomId (db : DB) (rid : Nat) : Option RoomRec :=
  db.rooms.find? (fun r => r.id == rid)

/-- The job row the effective `create` persists: the scalar fields the
claims observe plus the attached many-to-many links.  The `Job` model
has no property column and no property association. -/
structure CreatedJob where
  user : Nat
  updated_by : Option Nat
  description : String
  remarks : String
  rooms : List Nat
  topics : List String
  deriving Repr, DecidableEq

/-- The *effective* `JobSerializer.create` (serializers.py lines
277-321).  The class body defines `create` twice and this second
definition shadows the first (lines 128-205), so the first one's
property resolution and room-property adoption are dead code.  The
effective method: authentication guard; a falsy `room_id` and a
missing-title `topic_data` are rejected with field-keyed errors;
`Room.objects.get(room_id=...)`, whose `DoesNotExist` the dedicated
`except` clause surfaces field-keyed as `room_id: Invalid room ID`;
topic get-or-create; `Job.objects.create(**validated_data,
user=request.user)` — every keyword names a Job model field (a
`TypeError` would be caught by the generic `except` and surfaced
detail-keyed) — then the room and topic are attached.  `property_id`
is never read. -/
def jobSerializerCreate (db : DB) (authenticated : Bool) (uid : Nat)
    (inp : CreateInput) : Except CreateErr (DB × CreatedJob) :=
  if ¬authenticated then .error (.plainErr "User must be logged in to create a job")
  else if truthyNat inp.room_id = false then
    .error (.fieldErr "room_id" "This field is required.")
  else if (match inp.topic_data with
           | none => true
           | some td => td.title.isNone) then
    .error (.fieldErr "topic_data" "This field is required and must include a title.")
  else
    match findRoomByRoomId db (inp.room_id.getD 0) with
    | none => .error (.fieldErr "room_id" "Invalid room ID")
    | some room =>
        let gc := topicGetOrCreate db
          ((inp.topic_data.getD { title := none, description := none }).title.getD "")
        match jobObjectsCreate (createKwargKeys inp) with
        | .error m => .error (.detailErr m)
        | .ok _ =>
            .ok ({ gc.1 with jobsCreated := gc.1.jobsCreated + 1 },
                 { user := uid, updated_by := inp.updated_byIn,
                   description := inp.description, remarks := inp.remarks,
                   rooms := [room.id], topics := [gc.2] })

/-- A job instance as `JobSerializer.update` sees it: the scalar row,
its many-to-many room and topic links, and the in-memory Python
attribute the `instance.property = property_obj` assignment creates
(the `Job` model has no `property` column, so the attribute is never
persisted). -/
structure JobInstance where
  core : JobState
  rooms : List Nat
  topics : List String
  pyattr_property : Option Nat
  deriving Repr, DecidableEq

/-- Django many-to-many `add`: a no-op when the link already exists,
otherwise append. -/
def m2mAdd {α : Type} [DecidableEq α] (links : List α) (x : α) : List α :=
  if x ∈ links then links else links ++ [x]

/-- `JobSerializer.update` (serializers.py lines 207-242): pop
`topic_data` / `room_id` / `property_id`; apply the remaining
`validated_data` with `setattr` (modelled by `otherAttrs`); a truthy
`property_id` that resolves sets the in-memory attribute, a
`Property.DoesNotExist` is swallowed by `pass`; a truthy `room_id`
that resolves is *added* to the room set, a `Room.DoesNotExist` is
swallowed by `pass`; `topic_data` with a title get-or-creates the
topic and adds it; finally `instance.save()`. -/
def jobSerializerUpdate (db : DB) (inst : JobInstance)
    (room_id : Option Nat) (property_id : Option String)
    (topic_data : Option TopicData) (otherAttrs : JobState → JobState)
    (now : Nat) (genId : String) : DB × JobInstance :=
  let i1 := { inst with core := otherAttrs inst.core }
  let i2 :=
    if truthyStr property_id then
      match findProperty db (property_id.getD "") with
      | some p => { i1 with pyattr_property := some p.pk }
      | none => i1
    else i1
  let i3 :=
    if truthyNat room_id then
      match findRoom db (room_id.getD 0) with
      | some r => { i2 with rooms := m2mAdd i2.rooms r.id }
      | none => i2
    else i2
  let step4 :=
    match topic_data with
    | some td =>
        if td.title.isSome then
          let gc := topicGetOrCreate db (td.title.getD "")
          (gc.1, { i3 with topics := m2mAdd i3.topics gc.2 })
        else (db, i3)
    | none => (db, i3)
  (step4.1, { step4.2 with core := jobModelSave now genId step4.2.core })

/-! ## `JobImage` persistence (`models.py` lines 125-231) -/

/-- An uploaded file body: either bytes PIL can decode, or not. -/
inductive Upload where
  | valid (img : Img)
  | invalid (err : String)
  deriving Repr, DecidableEq

/-- The bytes currently referenced by the `image` field. -/
inductive FileData where
  | raw (u : Upload)
  | encoded (img : Img) (format : String)
  deriving Repr, DecidableEq

/-- A stored file: its name and its bytes. -/
structure StoredFile where
  name : String
  data : FileData
  deriving Repr, DecidableEq

/-- A `JobImage` row: `None` primary key means not yet saved. -/
structure JobImageRec where
  pk : Option Nat
  image : Option StoredFile
  uploaded_by : Option Nat
  deriving Repr, DecidableEq

/-- The index of the last `'.'` in a character list, if any. -/
def lastDotIdx (cs : List Char) : Option Nat :=
  ((List.range cs.length).filter (fun i => cs.get? i = some '.')).getLast?

/-- `os.path.splitext(name)[0]`: the name up to the last dot. -/
def splitextStem (s : String) : String :=
  match lastDotIdx s.data with
  | some i => String.mk (s.data.take i)
  | none => s

/-- `JobImage.process_image(image_file)` (models.py lines 165-195):
decoding failure raises; otherwise run the job normalization pipeline
and return the JPEG-encoded result. -/
def jobImageProcess (f : StoredFile) : Except String (Img × String) :=
  match f.data with
  | .raw (.invalid e) => .error ("Error processing image: " ++ e)
  | .raw (.valid img) => .ok ((jobNormalize img).1, jobEncodeParams.format)
  | .encoded img _ => .ok ((jobNormalize img).1, jobEncodeParams.format)

/-- `JobImage.save` (models.py lines 197-223): on a new row with an
image, try to process it; success replaces the file with the processed
bytes under `splitext(name)[0] + '.webp'`; failure is printed and
swallowed.  Either way `super().save()` persists the row (`newPk` is
the key the database assigns). -/
def jobImageSave (newPk : Nat) (rec : JobImageRec) : JobImageRec :=
  let isNew := rec.pk.isNone
  let rec1 :=
    match rec.image with
    | some f =>
        if isNew then
          match jobImageProcess f with
          | .ok (img, fmt) =>
              { rec with image := some { name := splitextStem f.name ++ ".webp",
                                         data := .encoded img fmt } }
          | .error _ => rec
        else rec
    | none => rec
  { rec1 with pk := some (rec1.pk.getD newPk) }

/-- The encoding a file extension conventionally announces. -/
def formatOfExtension : String → Option String
  | "jpg" => some "JPEG"
  | "jpeg" => some "JPEG"
  | "webp" => some "WEBP"
  | "png" => some "PNG"
  | "gif" => some "GIF"
  | _ => none

/-! ## Helper lemmas about the model save -/
theorem jobModelSave_status (now : Nat) (genId : String) (j : JobState) :
    (jobModelSave now genId j).status = j.status := by
  unfold jobModelSave
  dsimp only
  split_ifs <;> rfl

theorem jobModelSave_updated_by (now : Nat) (genId : String) (j : JobState) :
    (jobModelSave now genId j).updated_by = j.updated_by := by
  unfold jobModelSave
  dsimp only
  split_ifs <;> rfl

theorem jobModelSave_stamp (now : Nat) (genId : String) (j : JobState)
    (hs : j.status = some "completed") (hc : j.completed_at = none) :
    (jobModelSave now genId j).completed_at = some now := by
  unfold jobModelSave
  dsimp only
  split_ifs <;> simp_all

theorem jobModelSave_no_stamp (now : Nat) (genId : String) (j : JobState)
    (hs : j.status ≠ some "completed") :
    (jobModelSave now genId j).completed_at = j.completed_at := by
  unfold jobModelSave
  dsimp only
  split_ifs <;> simp_all

theorem jobModelSave_ca_some (now : Nat) (genId : String) (j : JobState) (t : Nat)
    (h : j.completed_at = some t) :
    (jobModelSave now genId j).completed_at = some t := by
  unfold jobModelSave
  dsimp only
  split_ifs <;> simp_all

theorem jobModelSave_id_set (now : Nat) (genId : String) (j : JobState) (h : j.job_id = "") :
    (jobModelSave now genId j).job_id = genId := by
  have he : j.job_id.isEmpty = true := by rw [h]; rfl
  simp only [jobModelSave, he, if_true]
  split_ifs <;> rfl

theorem jobModelSave_id_keep (now : Nat) (genId : String) (j : JobState) (h : j.job_id ≠ "") :
    (jobModelSave now genId j).job_id = j.job_id := by
  have he : j.job_id.isEmpty = false := by
    cases hj : j.job_id.isEmpty
    · rfl
    · exact absurd ((String.isEmpty_iff _).mp hj) h
  simp only [jobModelSave, he]
  split_ifs <;> simp_all

/-! ## Claim C6: job identifier format and generate-once behavior -/

/-- The alphabet handed to `get_random_string` (models.py line 316). -/
def hexAlphabet : String := "0123456789ABCDEF"

/-- The claimed shape: `j`, then two decimal digits, then exactly six
characters from the hex alphabet `0-9A-F`. -/
def isValidJobId (s : String) : Bool :=
  match s.data with
  | 'j' :: y1 :: y2 :: rest =>
      y1.isDigit && y2.isDigit && rest.length == 6
        && rest.all (fun c => c.isDigit || ('A' ≤ c && c ≤ 'F'))
  | _ => false

theorem twoDigitYear_spec (y : Nat) :
    (twoDigitYear y).data.length = 2 ∧ ∀ c ∈ (twoDigitYear y).data, c.isDigit := by
  have h100 : y % 100 < 100 := Nat.mod_lt _ (by norm_num)
  have key : ∀ m : Fin 100,
      (twoDigitYear m.val).data.length = 2 ∧
        ((twoDigitYear m.val).data.all Char.isDigit) = true := by decide
  have heq : twoDigitYear y = twoDigitYear (y % 100) := by
    unfold twoDigitYear
    rw [Nat.mod_mod_of_dvd y dvd_rfl]
  have hm := key ⟨y % 100, h100⟩
  rw [heq]
  refine ⟨hm.1, ?_⟩
  intro c hc
  exact List.all_eq_true.mp hm.2 c hc

/-- Claim C6: every generated job identifier is `j` + the 2-digit year
+ exactly six characters from the hex alphabet `0-9A-F`; the model
save assigns the generated id only when `job_id` is still empty and
never reassigns a nonempty one. -/
theorem c6_job_id_format_and_once :
    (∀ (year : Nat) (rand : List Char), rand.length = 6 →
        (∀ c ∈ rand, c ∈ hexAlphabet.data) →
        isValidJobId (generate_job_id year rand) = true)
    ∧ (∀ (now : Nat) (genId : String) (j : JobState), j.job_id = "" →
        (jobModelSave now genId j).job_id = genId)
    ∧ (∀ (now : Nat) (genId : String) (j : JobState), j.job_id ≠ "" →
        (jobModelSave now genId j).job_id = j.job_id) := by
  refine ⟨?_, jobModelSave_id_set, jobModelSave_id_keep⟩
  intro year rand hlen hmem
  have hhex : ∀ c ∈ hexAlphabet.data, (c.isDigit || ('A' ≤ c && c ≤ 'F')) = true := by
    decide
  obtain ⟨a, b, hab⟩ := List.length_eq_two.mp (twoDigitYear_spec year).1
  have hdig : ∀ c ∈ (twoDigitYear year).data, c.isDigit := (twoDigitYear_spec year).2
  have hdata : (generate_job_id year rand).data = 'j' :: a :: b :: rand := by
    simp [generate_job_id, String.data_append, hab]
  have ha : a.isDigit := hdig a (by simp [hab])
  have hb : b.isDigit := hdig b (by simp [hab])
  have hall : rand.all (fun c => c.isDigit || ('A' ≤ c && c ≤ 'F')) = true := by
    rw [List.all_eq_true]
    intro c hc
    exact hhex c (hmem c hc)
  unfold isValidJobId
  rw [hdata]
  simp [ha, hb, hlen, hall]

/-- Claim C6 witness at concrete inputs. -/
theorem c6_witness :
    isValidJobId (generate_job_id 2025 ['A', 'B', '0', '1', '2', 'F']) = true
    ∧ (jobModelSave 5 "j25ABCDEF"
        { job_id := "", status := some "pending", completed_at := none,
          updated_by := none }).job_id = "j25ABCDEF"
    ∧ (jobModelSave 5 "X"
        { job_id := "j24000000", status := some "pending", completed_at := none,
          updated_by := none }).job_id = "j24000000" :=
  ⟨c6_job_id_format_and_once.1 2025 ['A', 'B', '0', '1', '2', 'F'] (by decide) (by decide),
   c6_job_id_format_and_once.2.1 5 "j25ABCDEF" _ rfl,
   c6_job_id_format_and_once.2.2 5 "X" _ (by decide)⟩

/-! ## Claim C9: processing errors are swallowed, the row still saves -/

/-- Claim C9: when decoding the upload fails, `JobImage.save` catches
the processing error and the row is still persisted, keeping the
original (un-normalized) image file. -/
theorem c9_processing_error_swallowed :
    ∀ (rec : JobImageRec) (f : StoredFile) (e : String) (newPk : Nat),
      rec.pk = none →
      rec.image = some f →
      f.data = FileData.raw (Upload.invalid e) →
      (jobImageSave newPk rec).pk = some newPk
      ∧ (jobImageSave newPk rec).image = some f := by
  intro rec f e newPk h1 h2 h3
  unfold jobImageSave
  rw [h1, h2]
  simp [jobImageProcess, h3, h1, h2]

/-- Claim C9 witness: a concrete undecodable upload. -/
theorem c9_witness :
    (jobImageSave 41
      { pk := none,
        image := some { name := "maintenance_job_images/2025/01/abc.png",
                        data := FileData.raw (Upload.invalid "truncated") },
        uploaded_by := some 3 }).pk = some 41
    ∧ (jobImageSave 41
      { pk := none,
        image := some { name := "maintenance_job_images/2025/01/abc.png",
                        data := FileData.raw (Upload.invalid "truncated") },
        uploaded_by := some 3 }).image =
      some { name := "maintenance_job_images/2025/01/abc.png",
             data := FileData.raw (Upload.invalid "truncated") } :=
  c9_processing_error_swallowed _ _ "truncated" 41 rfl rfl rfl

/-! ## Claim C10: stored name says webp, bytes are JPEG -/

/-- Claim C10: a successfully normalized job image is stored under a
name with the `.webp` extension while its bytes are JPEG-encoded, and
the `webp` extension does not announce the JPEG encoding. -/
theorem c10_webp_name_jpeg_bytes :
    ∀ (rec : JobImageRec) (f : StoredFile) (img : Img) (newPk : Nat),
      rec.pk = none →
      rec.image = some f →
      f.data = FileData.raw (Upload.valid img) →
      (jobImageSave newPk rec).image =
        some { name := splitextStem f.name ++ ".webp",
               data := FileData.encoded (jobNormalize img).1 "JPEG" }
      ∧ ".webp".data <:+ (splitextStem f.name ++ ".webp").data
      ∧ formatOfExtension "webp" ≠ some "JPEG" := by
  intro rec f img newPk h1 h2 h3
  refine ⟨?_, ?_, by decide⟩
  · unfold jobImageSave
    rw [h1, h2]
    simp [jobImageProcess, h3, jobEncodeParams]
  · rw [String.data_append]
    exact List.suffix_append _ _

/-- Claim C10 witness: a concrete decodable upload. -/
theorem c10_witness :
    (jobImageSave 7
      { pk := none,
        image := some { name := "maintenance_job_images/2025/01/pic.png",
                        data := FileData.raw (Upload.valid { width := 100, height := 50, mode := "RGB" }) },
        uploaded_by := none }).image =
      some { name := "maintenance_job_images/2025/01/pic" ++ ".webp",
             data := FileData.encoded
               (jobNormalize { width := 100, height := 50, mode := "RGB" }).1 "JPEG" } :=
  (c10_webp_name_jpeg_bytes
    { pk := none,
      image := some { name := "maintenance_job_images/2025/01/pic.png",
                      data := FileData.raw (Upload.valid { width := 100, height := 50, mode := "RGB" }) },
      uploaded_by := none }
    _ _ 7 rfl rfl rfl).1

/-! ## Claim C4: update_status validation -/

/-- A fixed job row used in concrete scenarios. -/
def jobC4 : JobState :=
  { job_id := "j25AAAAAA", status := some "pending", completed_at := none,
    updated_by := none }

/-- Claim C4 counterexample: the empty string is not one of the five
statuses, yet `update_status` does not fail on it — the view only
validates *truthy* values, and `""` is falsy in Python, so the empty
status is written straight through. -/
theorem c4_counterexample :
    ("" ∈ STATUS_CHOICES ↔ False)
    ∧ update_status (some "") 7 true 5 "gen" jobC4 =
        .ok { job_id := "j25AAAAAA", status := some "", completed_at := none,
              updated_by := some 7 } := by
  constructor
  · decide
  · rfl

/-- The status and `updated_by` of a successful `update_status`
response; `none` when the view answered 400. -/
def resultFields : Except String JobState → Option (Option String × Option Nat)
  | .ok j => some (j.status, j.updated_by)
  | .error _ => none

/-- Claim C4 (amended): for supplied string status values and an
authenticated acting user, `update_status` fails with the validation
error exactly when the status is non-empty and outside
`STATUS_CHOICES`; every member of `STATUS_CHOICES` is persisted as the
job's status with the acting user recorded as `updated_by`; the empty
string skips the truthiness-guarded validation and is written through
as the job's status (an empty string satisfies the non-null `status`
column).  A wholly missing status value also skips the view's
validation, but the subsequent `job.save()` then violates the
non-null `status` column at the database layer, so the amended claim
quantifies only over supplied strings. -/
theorem c4_update_status_amended :
    (∀ (s : String) (u now : Nat) (g : String) (j : JobState),
      ((s ≠ "" ∧ s ∉ STATUS_CHOICES) →
        update_status (some s) u true now g j = .error "Invalid status value.")
      ∧ (s ∈ STATUS_CHOICES →
        resultFields (update_status (some s) u true now g j) = some (some s, some u)))
    ∧ (∀ (u now : Nat) (g : String) (j : JobState),
      resultFields (update_status (some "") u true now g j) = some (some "", some u)) := by
  constructor
  · intro s u now g j
    constructor
    · intro hs
      have hie : s.isEmpty = false := by
        cases h : s.isEmpty
        · rfl
        · exact absurd ((String.isEmpty_iff _).mp h) hs.1
      unfold update_status
      rw [if_pos ⟨by simp [truthyStr, hie], by simpa using hs.2⟩]
    · intro hmem
      unfold update_status
      rw [if_neg (by simp [hmem])]
      simp [resultFields, jobModelSave_status, jobModelSave_updated_by]
      split_ifs <;> rfl
  · intro u now g j
    unfold update_status
    rw [if_neg (by decide)]
    simp [resultFields, jobModelSave_status, jobModelSave_updated_by]

/-- Claim C4 amended witness: a rejected bogus status, an accepted
valid one, and an accepted empty string, at concrete inputs. -/
theorem c4_amended_witness :
    update_status (some "bogus") 3 true 9 "G" jobC4 = .error "Invalid status value."
    ∧ resultFields (update_status (some "in_progress") 3 true 9 "G" jobC4) =
        some (some "in_progress", some 3)
    ∧ resultFields (update_status (some "") 3 true 9 "G" jobC4) = some (some "", some 3) :=
  ⟨(c4_update_status_amended.1 "bogus" 3 9 "G" jobC4).1 ⟨by decide, by decide⟩,
   (c4_update_status_amended.1 "in_progress" 3 9 "G" jobC4).2 (by decide),
   c4_update_status_amended.2 3 9 "G" jobC4⟩

/-! ## Claim C5: additive room updates, silent ignoring of bad ids -/

/-- Claim C5: in `JobSerializer.update`, a truthy `room_id` that
resolves is *added* to the job's room set — every previously attached
room stays attached and a not-yet-attached room grows the set by one —
while a `room_id` or `property_id` that resolves to no row is silently
swallowed (`except ... DoesNotExist: pass`) and leaves the
corresponding association unchanged; the function is total, so no
error is surfaced in either case. -/
theorem c5_update_additive_and_silent :
    ∀ (db : DB) (inst : JobInstance) (rid : Nat) (pid : String)
      (f : JobState → JobState) (now : Nat) (g : String),
      (∀ r, findRoom db rid = some r → rid ≠ 0 →
        (jobSerializerUpdate db inst (some rid) none none f now g).2.rooms
          = m2mAdd inst.rooms r.id
        ∧ (∀ x ∈ inst.rooms,
            x ∈ (jobSerializerUpdate db inst (some rid) none none f now g).2.rooms)
        ∧ (r.id ∉ inst.rooms →
            (jobSerializerUpdate db inst (some rid) none none f now g).2.rooms.length
              = inst.rooms.length + 1))
      ∧ (findRoom db rid = none →
          (jobSerializerUpdate db inst (some rid) (some pid) none f now g).2.rooms
            = inst.rooms)
      ∧ (findProperty db pid = none →
          (jobSerializerUpdate db inst (some rid) (some pid) none f now g).2.pyattr_property
            = inst.pyattr_property) := by
  intro db inst rid pid f now g
  refine ⟨?_, ?_, ?_⟩
  · intro r hr hrid
    have ht : truthyNat (some rid) = true := by simp [truthyNat, hrid]
    refine ⟨?_, ?_, ?_⟩
    · simp [jobSerializerUpdate, ht, hr, truthyStr]
    · intro x hx
      simp [jobSerializerUpdate, ht, hr, truthyStr, m2mAdd]
      split_ifs with hmem
      · exact hx
      · exact List.mem_append_left _ hx
    · intro hnot
      simp [jobSerializerUpdate, ht, hr, truthyStr, m2mAdd, hnot]
  · intro hr
    by_cases ht : truthyNat (some rid) = true
    · cases hfp : findProperty db pid <;>
        simp [jobSerializerUpdate, ht, hr, hfp] <;> split_ifs <;> rfl
    · cases hfp : findProperty db pid <;>
        simp [jobSerializerUpdate, ht, hfp] <;> split_ifs <;> rfl
  · intro hp
    by_cases hts : truthyStr (some pid) = true
    · cases hfr : findRoom db rid <;>
        simp [jobSerializerUpdate, hts, hp, hfr] <;> split_ifs <;> rfl
    · cases hfr : findRoom db rid <;>
        simp [jobSerializerUpdate, hts, hfr] <;> split_ifs <;> rfl

/-- Claim C5 witness: the spec's end-to-end scenario — a job with two
attached rooms gains a third after `Update(job, room_id = 3)` — plus
silently ignored unresolvable ids at concrete inputs. -/
theorem c5_witness :
    (jobSerializerUpdate
      { props := [{ pk := 1, property_id := "P1" }],
        rooms := [{ id := 1, name := "a", properties := [] },
                  { id := 2, name := "b", properties := [] },
                  { id := 3, name := "c", properties := [] }],
        topicTitles := [], jobsCreated := 0 }
      { core := jobC4, rooms := [1, 2], topics := [], pyattr_property := none }
      (some 3) none none id 9 "G").2.rooms.length = 2 + 1
    ∧ (jobSerializerUpdate
      { props := [], rooms := [], topicTitles := [], jobsCreated := 0 }
      { core := jobC4, rooms := [1, 2], topics := [], pyattr_property := none }
      (some 9) (some "PX") none id 9 "G").2.rooms = [1, 2] := by
  constructor
  · exact ((c5_update_additive_and_silent _ _ 3 "" id 9 "G").1
      { id := 3, name := "c", properties := [] } (by decide) (by decide)).2.2 (by decide)
  · exact (c5_update_additive_and_silent _ _ 9 "PX" id 9 "G").2.1 (by decide)

/-! ## Claims C2 and C3: the effective create path -/

/-- The C2 scenario database: one property, one room linked to it. -/
def dbC2 : DB :=
  { props := [{ pk := 1, property_id := "P1" }],
    rooms := [{ id := 5, name := "room5", properties := [1] }],
    topicTitles := [], jobsCreated := 0 }

/-- The same database with the property row and the room-property link
removed. -/
def dbC2bare : DB :=
  { props := [],
    rooms := [{ id := 5, name := "room5", properties := [] }],
    topicTitles := [], jobsCreated := 0 }

/-- The C2 scenario input: a valid `room_id`, no topic data. -/
def inpC2 : CreateInput :=
  { description := "d", remarks := "r", statusIn := none, priorityIn := none,
    is_defectiveIn := none, updated_byIn := none, topic_data := none,
    room_id := some 5 }

/-- The C2 scenario input with the topic the effective create demands. -/
def inpC2t : CreateInput :=
  { inpC2 with topic_data := some { title := some "fix", description := none } }

/-- The created job of a successful create, if any. -/
def createdJobOf : Except CreateErr (DB × CreatedJob) → Option CreatedJob
  | .ok p => some p.2
  | .error _ => none

/-- Claim C2, behavior of the code at the claim's input: four fields —
`property_id` among them — are declared on the serializer but missing
from the effective `Meta.fields`, so the field-set construction fails
before any create request reaches the method; the effective create,
called directly on the claim's minimal input, is rejected for lacking
`topic_data`; and with a topic supplied it links the room but returns
the same job whether or not the room belongs to a property — the
room's property is never adopted (that logic exists only in the
shadowed first `create`). -/
theorem c2_effective_create_no_adoption :
    missingDeclaredFields =
      ["property_id", "is_preventivemaintenance", "property_name", "due_date"]
    ∧ jobSerializerFieldsGate ≠ Except.ok ()
    ∧ jobSerializerCreate dbC2 true 9 inpC2 =
        .error (.fieldErr "topic_data" "This field is required and must include a title.")
    ∧ createdJobOf (jobSerializerCreate dbC2 true 9 inpC2t) =
        some { user := 9, updated_by := none, description := "d", remarks := "r",
               rooms := [5], topics := ["fix"] }
    ∧ createdJobOf (jobSerializerCreate dbC2bare true 9 inpC2t) =
        createdJobOf (jobSerializerCreate dbC2 true 9 inpC2t) := by
  have hg : jobSerializerFieldsGate =
      .error ("The field property_id was declared on serializer JobSerializer, but has not been included in the fields option.") := rfl
  refine ⟨rfl, by rw [hg]; simp, rfl, rfl, rfl⟩

/-- Claim C3, behavior of the code: `property_id` is one of the
declared-but-not-listed fields that make the serializer unusable, and
the effective create never reads a property reference at all — no
input can make it produce a `property_id`-keyed error. -/
theorem c3_no_property_id_lookup :
    "property_id" ∈ missingDeclaredFields
    ∧ jobSerializerFieldsGate ≠ Except.ok ()
    ∧ ∀ (db : DB) (a : Bool) (uid : Nat) (inp : CreateInput) (m : String),
        jobSerializerCreate db a uid inp ≠ .error (.fieldErr "property_id" m) := by
  have hg : jobSerializerFieldsGate =
      .error ("The field property_id was declared on serializer JobSerializer, but has not been included in the fields option.") := rfl
  refine ⟨by decide, by rw [hg]; simp, ?_⟩
  intro db a uid inp m
  unfold jobSerializerCreate
  split_ifs <;> try simp
  cases hfr : findRoomByRoomId db (inp.room_id.getD 0) <;> simp [hfr]
  cases hoc : jobObjectsCreate (createKwargKeys inp) <;> simp [hoc]

/-! ## Claim C7: pipeline step order -/

/-- The C7 scenario image: 1000 x 1000 RGBA. -/
def imgC7 : Img := { width := 1000, height := 1000, mode := "RGBA" }

/-- Claim C7 counterexample: on a 1000 x 1000 RGBA job image the code
resizes *before* flattening the alpha channel, while the claimed order
composites first and downscales afterwards. -/
theorem c7_counterexample :
    (jobNormalize imgC7).2 =
      [PipeStep.decode, PipeStep.resize, PipeStep.composite, PipeStep.encode]
    ∧ specNormalizeOrder jobImageBound imgC7 =
      [PipeStep.decode, PipeStep.composite, PipeStep.resize, PipeStep.encode]
    ∧ (jobNormalize imgC7).2 ≠ specNormalizeOrder jobImageBound imgC7 := by
  refine ⟨rfl, rfl, by decide⟩

/-- Modelled after the code: the job pipeline's actual order — decode,
then downscale, then composite, then convert, then encode. -/
def jobNormalizeOrder (img : Img) : List PipeStep :=
  [PipeStep.decode]
  ++ (if img.width > jobImageBound ∨ img.height > jobImageBound then
        [PipeStep.resize] else [])
  ++ (if img.mode = "RGBA" ∨ img.mode = "LA" then [PipeStep.composite] else [])
  ++ (if ¬(img.mode = "RGBA" ∨ img.mode = "LA") ∧ img.mode ≠ "RGB" then
        [PipeStep.convert] else [])
  ++ [PipeStep.encode]

/-- Claim C7 (amended): the profile pipeline follows the claimed order
(decode; composite `RGBA`/`LA` onto white; otherwise convert non-RGB;
downscale above 300 x 300; encode WEBP at quality 85 with
optimization), but the job pipeline downscales *before* the
composite/convert steps (decode; downscale above 800 x 800; composite;
convert; encode JPEG at quality 85 with optimization). -/
theorem c7_pipeline_order_amended :
    ∀ img : Img,
      (profileNormalize img).2 = specNormalizeOrder profileImageBound img
      ∧ (jobNormalize img).2 = jobNormalizeOrder img
      ∧ jobEncodeParams = { format := "JPEG", quality := 85, optimize := true }
      ∧ profileEncodeParams = { format := "WEBP", quality := 85, optimize := true }
      ∧ jobImageBound = 800 ∧ profileImageBound = 300 := by
  intro img
  refine ⟨?_, ?_, rfl, rfl, rfl, rfl⟩
  · by_cases h1 : img.mode = "RGBA" <;>
    by_cases h2 : img.mode = "LA" <;>
    by_cases h3 : img.mode = "RGB" <;>
    by_cases hH : profileImageBound < img.height <;>
    by_cases hW : profileImageBound < img.width <;>
      (try simp_all [profileNormalize, specNormalizeOrder, thumbInto]) <;>
      (try (have hcond : ¬(profileImageBound < img.height ∨ profileImageBound < img.width) := by
              omega
            simp_all [if_neg hcond]))
  · by_cases h1 : img.mode = "RGBA" <;>
    by_cases h2 : img.mode = "LA" <;>
    by_cases h3 : img.mode = "RGB" <;>
    by_cases hW : jobImageBound < img.width <;>
    by_cases hH : jobImageBound < img.height <;>
      (try simp_all [jobNormalize, jobNormalizeOrder, thumbInto]) <;>
      (try (have hcond : ¬(jobImageBound < img.width ∨ jobImageBound < img.height) := by
              omega
            simp_all [if_neg hcond]))

/-! ## Claim C8: the resized longer dimension equals the bound -/

theorem max_one_near (q : ℚ) (hq : 0 ≤ q) (c : ℤ) (hc : c = ⌊q⌋ ∨ c = ⌈q⌉) :
    |((max c 1 : ℤ) : ℚ) - q| ≤ 1 := by
  rcases hc with rfl | rfl
  · have h0 : 0 ≤ ⌊q⌋ := Int.floor_nonneg.mpr hq
    by_cases h1 : (1 : ℤ) ≤ ⌊q⌋
    · rw [max_eq_left h1]
      have h2 : (⌊q⌋ : ℚ) ≤ q := Int.floor_le q
      have h3 : q - 1 < (⌊q⌋ : ℚ) := Int.sub_one_lt_floor q
      rw [abs_le]
      constructor <;> linarith
    · have hz : ⌊q⌋ = 0 := by omega
      have hlt : q < 1 := by
        have := Int.lt_floor_add_one q
        rw [hz] at this
        push_cast at this
        linarith
      rw [max_eq_right (by omega)]
      rw [abs_le]
      push_cast
      constructor <;> linarith
  · have h0 : (0 : ℚ) ≤ (⌈q⌉ : ℚ) := le_trans hq (Int.le_ceil q)
    by_cases h1 : (1 : ℤ) ≤ ⌈q⌉
    · rw [max_eq_left h1]
      have h2 : q ≤ (⌈q⌉ : ℚ) := Int.le_ceil q
      have h3 : (⌈q⌉ : ℚ) < q + 1 := Int.ceil_lt_add_one q
      rw [abs_le]
      constructor <;> linarith
    · have hz : ⌈q⌉ = 0 := by
        have : (0 : ℤ) ≤ ⌈q⌉ := by exact_mod_cast h0
        omega
      have hq0 : q = 0 := by
        have h2 : q ≤ (⌈q⌉ : ℚ) := Int.le_ceil q
        rw [hz] at h2
        push_cast at h2
        linarith
      rw [max_eq_right (by omega), hq0]
      norm_num
  
theorem roundAspect_near (q : ℚ) (hq : 0 ≤ q) (key : ℤ → ℚ) :
    |((roundAspect q key : ℤ) : ℚ) - q| ≤ 1 := by
  unfold roundAspect
  split_ifs with h
  · exact max_one_near q hq ⌊q⌋ (Or.inl rfl)
  · exact max_one_near q hq ⌈q⌉ (Or.inr rfl)

theorem roundAspect_le (q : ℚ) (key : ℤ → ℚ) (b : ℤ) (hb : 1 ≤ b)
    (hqb : q ≤ (b : ℚ)) : roundAspect q key ≤ b := by
  have hc : ⌈q⌉ ≤ b := Int.ceil_le.mpr hqb
  have hf : ⌊q⌋ ≤ b := le_trans (Int.floor_le_ceil q) hc
  unfold roundAspect
  split_ifs <;> simp [max_le_iff] <;> omega

theorem roundAspect_one_le (q : ℚ) (key : ℤ → ℚ) : 1 ≤ roundAspect q key :=
  le_max_right _ 1

/-- The heart of claim C8, at the level of the `thumbnail` call: when
either input dimension exceeds the bound, the longer output dimension
equals the bound and the other is within one pixel of the exact
aspect-preserving value. -/
theorem pilThumbnail_spec (b w h : Nat) (hb : 0 < b) (hw : 0 < w) (hh : 0 < h)
    (hex : b < w ∨ b < h) :
    max (pilThumbnail b w h).1 (pilThumbnail b w h).2 = b
    ∧ (w ≤ h → (pilThumbnail b w h).2 = b
        ∧ |((pilThumbnail b w h).1 : ℚ) - (b : ℚ) * w / h| ≤ 1)
    ∧ (h < w → (pilThumbnail b w h).1 = b
        ∧ |((pilThumbnail b w h).2 : ℚ) - (b : ℚ) * h / w| ≤ 1) := by
  have hnot : ¬(w ≤ b ∧ h ≤ b) := by omega
  have hhq : (0 : ℚ) < (h : ℚ) := by exact_mod_cast hh
  have hwq : (0 : ℚ) < (w : ℚ) := by exact_mod_cast hw
  have hbq : (0 : ℚ) ≤ (b : ℚ) := by positivity
  by_cases hwh : w ≤ h
  · have hres : pilThumbnail b w h =
        ((roundAspect ((b : ℚ) * ((w : ℚ) / (h : ℚ)))
            (fun n => |(w : ℚ) / (h : ℚ) - (n : ℚ) / (b : ℚ)|)).toNat, b) := by
      unfold pilThumbnail
      rw [if_neg hnot, if_pos hwh]
    set q : ℚ := (b : ℚ) * ((w : ℚ) / (h : ℚ)) with hqdef
    set key : ℤ → ℚ := fun n => |(w : ℚ) / (h : ℚ) - (n : ℚ) / (b : ℚ)| with hkey
    have hq0 : 0 ≤ q := by positivity
    have hdiv1 : (w : ℚ) / (h : ℚ) ≤ 1 := by
      rw [div_le_one hhq]
      exact_mod_cast hwh
    have hqb : q ≤ (b : ℚ) := by
      calc q ≤ (b : ℚ) * 1 := by
              apply mul_le_mul_of_nonneg_left hdiv1 hbq
        _ = (b : ℚ) := mul_one _
    have hr1 : 1 ≤ roundAspect q key := roundAspect_one_le q key
    have hrb : roundAspect q key ≤ (b : ℤ) := by
      apply roundAspect_le q key _ (by exact_mod_cast hb)
      exact_mod_cast hqb
    have htn : (roundAspect q key).toNat ≤ b := Int.toNat_le.mpr (by exact_mod_cast hrb)
    have hcast : (((roundAspect q key).toNat : ℕ) : ℚ) = ((roundAspect q key : ℤ) : ℚ) := by
      rw [← Int.cast_natCast]
      congr 1
      exact Int.toNat_of_nonneg (by omega)
    have hqmul : q = (b : ℚ) * w / h := by
      rw [hqdef, mul_div_assoc]
    refine ⟨?_, ?_, ?_⟩
    · rw [hres]
      simpa using Nat.max_eq_right htn
    · intro _
      rw [hres]
      refine ⟨rfl, ?_⟩
      simp only
      rw [hcast, ← hqmul]
      exact roundAspect_near q hq0 key
    · intro hcontra
      omega
  · have hhw : h < w := by omega
    have hres : pilThumbnail b w h =
        (b, (roundAspect ((b : ℚ) / ((w : ℚ) / (h : ℚ)))
            (fun n => if n = 0 then 0 else |(w : ℚ) / (h : ℚ) - (b : ℚ) / (n : ℚ)|)).toNat) := by
      unfold pilThumbnail
      rw [if_neg hnot, if_neg hwh]
    set q : ℚ := (b : ℚ) / ((w : ℚ) / (h : ℚ)) with hqdef
    set key : ℤ → ℚ :=
      fun n => if n = 0 then 0 else |(w : ℚ) / (h : ℚ) - (b : ℚ) / (n : ℚ)| with hkey
    have hqeq : q = (b : ℚ) * h / w := by
      rw [hqdef, div_div_eq_mul_div]
    have hq0 : 0 ≤ q := by
      rw [hqeq]
      positivity
    have hdiv1 : (h : ℚ) / (w : ℚ) ≤ 1 := by
      rw [div_le_one hwq]
      exact_mod_cast le_of_lt hhw
    have hqb : q ≤ (b : ℚ) := by
      rw [hqeq, mul_div_assoc]
      calc (b : ℚ) * ((h : ℚ) / (w : ℚ)) ≤ (b : ℚ) * 1 :=
              mul_le_mul_of_nonneg_left hdiv1 hbq
        _ = (b : ℚ) := mul_one _
    have hr1 : 1 ≤ roundAspect q key := roundAspect_one_le q key
    have hrb : roundAspect q key ≤ (b : ℤ) := by
      apply roundAspect_le q key _ (by exact_mod_cast hb)
      exact_mod_cast hqb
    have htn : (roundAspect q key).toNat ≤ b := Int.toNat_le.mpr (by exact_mod_cast hrb)
    have hcast : (((roundAspect q key).toNat : ℕ) : ℚ) = ((roundAspect q key : ℤ) : ℚ) := by
      rw [← Int.cast_natCast]
      congr 1
      exact Int.toNat_of_nonneg (by omega)
    refine ⟨?_, ?_, ?_⟩
    · rw [hres]
      simpa using Nat.max_eq_left htn
    · intro hcontra
      omega
    · intro _
      rw [hres]
      refine ⟨rfl, ?_⟩
      simp only
      rw [hcast, ← hqeq]
      exact roundAspect_near q hq0 key

theorem jobNormalize_dims (img : Img) :
    (jobNormalize img).1.width =
      (if jobImageBound < img.width ∨ jobImageBound < img.height then
        (pilThumbnail jobImageBound img.width img.height).1 else img.width)
    ∧ (jobNormalize img).1.height =
      (if jobImageBound < img.width ∨ jobImageBound < img.height then
        (pilThumbnail jobImageBound img.width img.height).2 else img.height) := by
  by_cases hEx : jobImageBound < img.width ∨ jobImageBound < img.height <;>
    (constructor <;> simp [jobNormalize, hEx, thumbInto] <;> split_ifs <;> rfl)

theorem profileNormalize_dims (img : Img) :
    (profileNormalize img).1.width =
      (if profileImageBound < img.height ∨ profileImageBound < img.width then
        (pilThumbnail profileImageBound img.width img.height).1 else img.width)
    ∧ (profileNormalize img).1.height =
      (if profileImageBound < img.height ∨ profileImageBound < img.width then
        (pilThumbnail profileImageBound img.width img.height).2 else img.height) := by
  by_cases hEx : profileImageBound < img.height ∨ profileImageBound < img.width <;>
    (constructor <;> simp [profileNormalize, hEx, thumbInto] <;> split_ifs <;> simp_all)

/-- Claim C8: for every image with a dimension above the bound of its
kind (800 for job images, 300 for profile images), the stored result's
longer dimension equals the bound and the short dimension is within
one pixel of the exact aspect-preserving value. -/
theorem c8_longer_dimension_equals_bound :
    ∀ img : Img, 0 < img.width → 0 < img.height →
      ((jobImageBound < img.width ∨ jobImageBound < img.height) →
        max (jobNormalize img).1.width (jobNormalize img).1.height = jobImageBound
        ∧ (img.width ≤ img.height →
            (jobNormalize img).1.height = jobImageBound
            ∧ |((jobNormalize img).1.width : ℚ)
                - (jobImageBound : ℚ) * img.width / img.height| ≤ 1)
        ∧ (img.height < img.width →
            (jobNormalize img).1.width = jobImageBound
            ∧ |((jobNormalize img).1.height : ℚ)
                - (jobImageBound : ℚ) * img.height / img.width| ≤ 1))
      ∧ ((profileImageBound < img.width ∨ profileImageBound < img.height) →
        max (profileNormalize img).1.width (profileNormalize img).1.height = profileImageBound
        ∧ (img.width ≤ img.height →
            (profileNormalize img).1.height = profileImageBound
            ∧ |((profileNormalize img).1.width : ℚ)
                - (profileImageBound : ℚ) * img.width / img.height| ≤ 1)
        ∧ (img.height < img.width →
            (profileNormalize img).1.width = profileImageBound
            ∧ |((profileNormalize img).1.height : ℚ)
                - (profileImageBound : ℚ) * img.height / img.width| ≤ 1)) := by
  intro img hw hh
  constructor
  · intro hEx
    have hd := jobNormalize_dims img
    simp only [if_pos hEx] at hd
    rw [hd.1, hd.2]
    exact pilThumbnail_spec jobImageBound img.width img.height (by norm_num [jobImageBound])
      hw hh hEx
  · intro hEx
    have hEx2 : profileImageBound < img.height ∨ profileImageBound < img.width := hEx.symm
    have hd := profileNormalize_dims img
    simp only [if_pos hEx2] at hd
    rw [hd.1, hd.2]
    exact pilThumbnail_spec profileImageBound img.width img.height
      (by norm_num [profileImageBound]) hw hh hEx

/-- Claim C8 witness: a 1600 x 800 image resizes to 800 x 400 under
the job bound, and the profile bound sends it to 300 x 150. -/
theorem c8_witness :
    (max (jobNormalize { width := 1600, height := 800, mode := "RGB" }).1.width
      (jobNormalize { width := 1600, height := 800, mode := "RGB" }).1.height
      = jobImageBound)
    ∧ (max (profileNormalize { width := 1600, height := 800, mode := "RGB" }).1.width
      (profileNormalize { width := 1600, height := 800, mode := "RGB" }).1.height
      = profileImageBound) :=
  ⟨((c8_longer_dimension_equals_bound { width := 1600, height := 800, mode := "RGB" }
      (by norm_num) (by norm_num)).1 (by norm_num [jobImageBound])).1,
   ((c8_longer_dimension_equals_bound { width := 1600, height := 800, mode := "RGB" }
      (by norm_num) (by norm_num)).2 (by norm_num [profileImageBound])).1⟩

/-! ## Claim C1: the completed_at lifecycle -/

/-- Full characterization of a successful `update_status` call. -/
theorem update_status_ok (sv : Option String) (u : Nat) (a : Bool) (now : Nat)
    (genId : String) (j : JobState)
    (h : ¬(truthyStr sv = true ∧ sv.getD "" ∉ STATUS_CHOICES)) :
    update_status sv u a now genId j =
      .ok { job_id := if j.job_id.isEmpty then genId else j.job_id,
            status := sv,
            completed_at :=
              if sv = some "completed" ∧ (j.status ≠ some "completed" ∨ j.completed_at = none)
              then some now else j.completed_at,
            updated_by := if a then some u else j.updated_by } := by
  unfold update_status
  rw [if_neg (by simpa using h)]
  unfold jobModelSave
  by_cases ha : a <;>
  by_cases hsv : sv = some "completed" <;>
  by_cases hst : j.status = some "completed" <;>
  by_cases hca : j.completed_at = none <;>
  by_cases hid : j.job_id.isEmpty <;>
    simp_all <;> split_ifs <;> simp_all

theorem stepJob_some_preserved (j : JobState) (op : JobOp)
    (h : j.completed_at ≠ none) : (stepJob j op).completed_at ≠ none := by
  cases op with
  | saveWithStatus new now genId =>
      obtain ⟨t, ht⟩ := Option.ne_none_iff_exists'.mp h
      simp only [stepJob]
      rw [jobModelSave_ca_some now genId _ t (by simp [ht])]
      simp
  | updStatus sv u a now genId =>
      simp only [stepJob]
      by_cases hc : truthyStr sv = true ∧ sv.getD "" ∉ STATUS_CHOICES
      · have : update_status sv u a now genId j = .error "Invalid status value." := by
          unfold update_status
          rw [if_pos (by simpa using hc)]
        rw [this]
        exact h
      · rw [update_status_ok sv u a now genId j hc]
        dsimp only
        split_ifs <;> simp_all

theorem runJob_some_preserved (j : JobState) (ops : List JobOp)
    (h : j.completed_at ≠ none) : (runJob j ops).completed_at ≠ none := by
  induction ops generalizing j with
  | nil => exact h
  | cons op rest ih => exact ih (stepJob j op) (stepJob_some_preserved j op h)

/-- One-step characterization from a fresh (never completed) state:
either nothing is stamped and the state is still not completed, or the
step transitioned into `completed` and stamped the operation's time. -/
theorem stepJob_fresh (j : JobState) (op : JobOp)
    (h1 : j.completed_at = none) (h2 : j.status ≠ some "completed") :
    ((stepJob j op).completed_at = none ∧ (stepJob j op).status ≠ some "completed")
    ∨ ((stepJob j op).completed_at = some op.now
        ∧ (stepJob j op).status = some "completed") := by
  cases op with
  | saveWithStatus new now genId =>
      by_cases hnew : new = some "completed"
      · right
        subst hnew
        constructor
        · exact jobModelSave_stamp now genId _ rfl h1
        · rw [stepJob, jobModelSave_status]
      · left
        constructor
        · rw [stepJob, jobModelSave_no_stamp now genId _ (by simpa using hnew)]
          exact h1
        · rw [stepJob, jobModelSave_status]
          simpa using hnew
  | updStatus sv u a now genId =>
      simp only [stepJob, JobOp.now]
      by_cases hc : truthyStr sv = true ∧ sv.getD "" ∉ STATUS_CHOICES
      · left
        have : update_status sv u a now genId j = .error "Invalid status value." := by
          unfold update_status
          rw [if_pos (by simpa using hc)]
        rw [this]
        exact ⟨h1, h2⟩
      · rw [update_status_ok sv u a now genId j hc]
        dsimp only
        by_cases hsv : sv = some "completed"
        · right
          rw [if_pos ⟨hsv, Or.inl h2⟩]
          exact ⟨rfl, hsv⟩
        · left
          rw [if_neg (by simp [hsv])]
          exact ⟨h1, hsv⟩

/-- Claim C1: starting from a job that has never been completed and
has no completion stamp, along any sequence of model-save and
update_status operations (1) `completed_at` is unset exactly as long
as no state of the run has reached status `completed`; (2) the step
that first transitions into `completed` stamps `completed_at` with
that operation's current time; (3) no operation ever clears a set
`completed_at`. -/
theorem c1_completed_at_lifecycle :
    (∀ (j : JobState) (ops : List JobOp),
      j.completed_at = none → j.status ≠ some "completed" →
      ((runJob j ops).completed_at = none ↔ reachesCompleted j ops = false))
    ∧ (∀ (j : JobState) (op : JobOp),
      j.completed_at = none → j.status ≠ some "completed" →
      (stepJob j op).status = some "completed" →
      (stepJob j op).completed_at = some op.now)
    ∧ (∀ (j : JobState) (op : JobOp),
      j.completed_at ≠ none → (stepJob j op).completed_at ≠ none) := by
  refine ⟨?_, ?_, stepJob_some_preserved⟩
  · intro j ops
    induction ops generalizing j with
    | nil =>
        intro h1 h2
        simp [runJob, reachesCompleted, h1, h2]
    | cons op rest ih =>
        intro h1 h2
        have hstep := stepJob_fresh j op h1 h2
        rw [runJob, reachesCompleted]
        have hfalse : (j.status == some "completed") = false := by
          simpa using h2
        rw [hfalse, Bool.false_or]
        rcases hstep with ⟨ha, hb⟩ | ⟨ha, hb⟩
        · exact ih (stepJob j op) ha hb
        · constructor
          · intro hrun
            exact absurd hrun (runJob_some_preserved _ rest (by simp [ha]))
          · intro hreach
            have : reachesCompleted (stepJob j op) rest = true := by
              cases rest with
              | nil => simp [reachesCompleted, hb]
              | cons op2 rest2 => simp [reachesCompleted, hb]
            rw [this] at hreach
            exact absurd hreach (by simp)
  · intro j op h1 h2 h3
    rcases stepJob_fresh j op h1 h2 with ⟨_, hb⟩ | ⟨ha, _⟩
    · exact absurd h3 hb
    · exact ha

/-- A fresh pending job, not yet saved. -/
def jFresh : JobState :=
  { job_id := "", status := some "pending", completed_at := none, updated_by := none }

/-- A job already completed at time 10. -/
def jDone : JobState :=
  { job_id := "j25000000", status := some "completed", completed_at := some 10,
    updated_by := some 1 }

/-- The `update_status` operation completing a job at time 10. -/
def opComplete : JobOp := JobOp.updStatus (some "completed") 1 true 10 "j25000000"

/-- The `update_status` operation moving a job to `in_progress` at time 20. -/
def opBack : JobOp := JobOp.updStatus (some "in_progress") 2 true 20 "X"

/-- Claim C1 witness: the spec's scenario at concrete inputs — a fresh
pending job, completed through `update_status` at time 10, then moved
back to `in_progress`: the stamp appears at the transition and is
never cleared. -/
theorem c1_witness :
    ((runJob jFresh [opComplete]).completed_at = none
      ↔ reachesCompleted jFresh [opComplete] = false)
    ∧ (stepJob jFresh opComplete).completed_at = some 10
    ∧ (stepJob jDone opBack).completed_at ≠ none :=
  ⟨c1_completed_at_lifecycle.1 _ _ rfl (by decide),
   c1_completed_at_lifecycle.2.1 _ _ rfl (by decide) (by decide),
   c1_completed_at_lifecycle.2.2 _ _ (by decide)⟩
